import Mathlib

/-!
Shallow embedding of `bot/helper/mirror_leech_utils/gdrive_utils/upload.py`
(class `GoogleDriveUpload`): the chunked transfer client `_upload_file`, the
tenacity retry wrapper around it, the directory walker `_upload_dir`, and the
orchestrator `upload`.

The external world is modelled as data threaded through every operation:
  * a list of chunk-request outcomes (`ChunkEvent`), one consumed per
    `next_chunk()` call;
  * a list of answers for the polled cancellation flag, one consumed per read
    of `listener.is_cancelled` (an empty list reads as `false`);
  * a fresh-identifier counter for objects created on the remote drive.
Observable side effects (local deletions, permission grants, identity
switches, listener callbacks) are recorded in an action trace.
-/

namespace GdUpload

/-- One outcome of a `drive_file.next_chunk()` call in the resumable session:
the chunk was accepted but the upload is unfinished (`progress`), the service
finalized the object (`finalize`), or the call raised an `HttpError` carrying
an HTTP status, a `content-type` header and — when the body is the JSON error
payload — the error `reason` field. -/
inductive ChunkEvent where
  | progress
  | finalize (id : Nat)
  | fail (status : Nat) (contentType : String) (reason : String)
  deriving Repr, DecidableEq

/-- Exceptions that flow through the module: `HttpError`, the two string
exceptions raised by `upload`, the tenacity `RetryError` wrapper, the
`TypeError` a `None` response would raise, and a marker for an exhausted
environment script (never produced on the inputs the theorems use). -/
inductive Exc where
  | http (status : Nat) (contentType : String) (reason : String)
  | extFiltered
  | manualCancel
  | typeError
  | stuck
  | retryErr (attempts : Nat) (last : Exc)
  deriving Repr, DecidableEq

/-- Observable side effects, in program order. -/
inductive Action where
  | attemptStart (path : String)
  | switchSA
  | restartFile (path : String)
  | removeLocal (path : String)
  | setPerm (id : Nat)
  | createDir (parent : Nat) (newId : Nat)
  | deleteRemoteDir (id : Nat)
  | onUploadError (e : Exc)
  | onUploadComplete (link : Option Nat) (files folders : Nat) (folder : Bool)
  deriving Repr, DecidableEq

/-- Job configuration: the listener flags and constants read by the code.
`useSa`, `saNumber` come from the credential-pool setup; `seed`, `newDir`,
`extFilter` from the listener; `unwanted` and `ftDelete` are the arguments
`unwanted_files` and `ft_delete` of `upload`. -/
structure Cfg where
  seed : Bool
  newDir : Bool
  useSa : Bool
  saNumber : Nat
  isTeamDrive : Bool
  extFilter : List String
  unwanted : List String
  ftDelete : List String
  upDest : Nat
  deriving Repr

/-- Mutable job state: pending cancellation-poll answers, the used-count of
the service-account pool, the two job counters, a fresh-id source for created
remote objects, and the recorded action trace. -/
structure S where
  cancel : List Bool
  saCount : Nat
  totalFiles : Nat
  totalFolders : Nat
  nextId : Nat
  acts : List Action
  deriving Repr, DecidableEq

def S.log (s : S) (a : Action) : S := { s with acts := s.acts ++ [a] }

def S.genId (s : S) : Nat × S := (s.nextId, { s with nextId := s.nextId + 1 })

/-- Initial state with a given cancellation script. -/
def mkS (cancel : List Bool) : S :=
  { cancel := cancel, saCount := 0, totalFiles := 0, totalFolders := 0,
    nextId := 0, acts := [] }

/-- Read the externally owned cancellation flag: the next pending poll
answer, `false` when the script is exhausted. -/
def readFlag (l : List Bool) : Bool := l.headD false

/-- The statuses retried in place by the chunk loop:
`[500, 502, 503, 504, 429]`. -/
def retryableStatuses : List Nat := [500, 502, 503, 504, 429]

/-- The two quota reasons that trigger rotation instead of escalation. -/
def quotaReasons : List String := ["userRateLimitExceeded", "dailyLimitExceeded"]

/-- `pre` is a character-wise prefix of `s` (Python `str.startswith`). -/
def strStartsWith (s pre : String) : Bool := pre.data.isPrefixOf s.data

/-- `suf` is a character-wise suffix of `s` (Python `str.endswith`). -/
def strEndsWith (s suf : String) : Bool := suf.data.isSuffixOf s.data

/-- Python `str.lower()`. -/
def strLower (s : String) : String := ⟨s.data.map Char.toLower⟩

/-- `item.lower().endswith(tuple(extension_filter))`. -/
def matchesFilter (filters : List String) (nm : String) : Bool :=
  filters.any (fun suf => strEndsWith (strLower nm) suf)

/-- Modelled from the spec: `switch_service_account` lives in the helper
module `gdrive_utils/helper.py`, which is not under `src/`. Per the spec's
Rotator contract it advances to the next identity in the pool and the used
counter `sa_count` increases by one; the exhaustion guard itself
(`sa_count >= sa_number`) is in `upload.py` and is modelled in `fileLoop`. -/
def switchAccount (s : S) : S :=
  ({ s with saCount := s.saCount + 1 }).log Action.switchSA

/-- Result of the resumable-session `while` loop of `_upload_file`
(lines 219-256): the loop ended with the given `response` (`none` when it
ended because the cancellation flag was read as true), the quota branch
returned `None` early (line 244), the quota branch re-invoked `_upload_file`
after rotation (line 247), or an exception escaped the loop. -/
inductive LoopOut where
  | finalizedResp (resp : Option Nat)
  | nullEarly
  | restart
  | raised (e : Exc)
  deriving Repr, DecidableEq

/-- The `while response is None and not self.listener.is_cancelled` loop of
`_upload_file`. One `ChunkEvent` is consumed per `next_chunk()` call; one
cancellation poll is consumed per loop-condition check (and one more inside
the rotation branch, line 243). `retries` is the single counter initialized
once before the loop (line 220). -/
def fileLoop (cfg : Cfg) (fp : String) (retries : Nat) :
    List ChunkEvent → S → LoopOut × List ChunkEvent × S
  | chunks, s =>
    let c := readFlag s.cancel
    let s1 : S := { s with cancel := s.cancel.tail }
    if c then (LoopOut.finalizedResp none, chunks, s1)
    else
      match chunks with
      | [] => (LoopOut.raised Exc.stuck, [], s1)
      | ChunkEvent.progress :: rest => fileLoop cfg fp retries rest s1
      | ChunkEvent.finalize i :: rest =>
          (LoopOut.finalizedResp (some i), rest, s1)
      | ChunkEvent.fail st ct rsn :: rest =>
          if st ∈ retryableStatuses ∧ retries < 10 then
            fileLoop cfg fp (retries + 1) rest s1
          else if strStartsWith ct "application/json" then
            if rsn ∈ quotaReasons then
              if cfg.useSa then
                if cfg.saNumber ≤ s1.saCount then
                  (LoopOut.raised (Exc.http st ct rsn), rest, s1)
                else
                  let c2 := readFlag s1.cancel
                  let s2 : S := { s1 with cancel := s1.cancel.tail }
                  if c2 then (LoopOut.nullEarly, rest, s2)
                  else (LoopOut.restart, rest,
                        (switchAccount s2).log (Action.restartFile fp))
              else (LoopOut.raised (Exc.http st ct rsn), rest, s1)
            else (LoopOut.raised (Exc.http st ct rsn), rest, s1)
          else
            fileLoop cfg fp retries rest s1

/-- Result of one whole body run of `_upload_file`: a normal return or raise
(`done`), or the rotation branch's re-invocation of the wrapped function
(`restart`). A returned value of `none` is Python's `None` return. -/
inductive OnceOut where
  | done (r : Except Exc (Option Nat))
  | restart
  deriving Repr

/-- The zero-size branch of `_upload_file` (lines 182-205): one non-resumable
`create` call, permission grant unless team drive, then the download link is
returned — with no local deletion and no cancellation checks. -/
def zeroSizeCreate (cfg : Cfg) (s : S) : OnceOut × S :=
  let (i, s1) := s.genId
  let s2 := if cfg.isTeamDrive then s1 else s1.log (Action.setPerm i)
  (OnceOut.done (Except.ok (some i)), s2)

/-- Lines 257-274 of `_upload_file`: after the loop, re-read the cancellation
flag (return `None` if set), apply the deletion policy
`not seed or new_dir or file_path in ft_delete`, grant permission unless team
drive, and return the link when not nested in a directory. A `none` response
here would make `response["id"]` raise, modelled as `Exc.typeError`. -/
def afterLoop (cfg : Cfg) (fp : String) (inDir : Bool) (resp : Option Nat)
    (s : S) : OnceOut × S :=
  let c := readFlag s.cancel
  let s1 : S := { s with cancel := s.cancel.tail }
  if c then (OnceOut.done (Except.ok none), s1)
  else
    let s2 := if cfg.seed = false ∨ cfg.newDir ∨ fp ∈ cfg.ftDelete
              then s1.log (Action.removeLocal fp) else s1
    match resp with
    | none => (OnceOut.done (Except.error Exc.typeError), s2)
    | some i =>
        let s3 := if cfg.isTeamDrive then s2 else s2.log (Action.setPerm i)
        if inDir then (OnceOut.done (Except.ok none), s3)
        else (OnceOut.done (Except.ok (some i)), s3)

/-- One run of the body of `_upload_file` (without the retry decorator). -/
def uploadFileOnce (cfg : Cfg) (fp : String) (size : Nat) (inDir : Bool)
    (chunks : List ChunkEvent) (s : S) : OnceOut × List ChunkEvent × S :=
  if size = 0 then
    let (r, s1) := zeroSizeCreate cfg s
    (r, chunks, s1)
  else
    match fileLoop cfg fp 0 chunks s with
    | (LoopOut.finalizedResp resp, ch, s1) =>
        let (r, s2) := afterLoop cfg fp inDir resp s1
        (r, ch, s2)
    | (LoopOut.nullEarly, ch, s1) => (OnceOut.done (Except.ok none), ch, s1)
    | (LoopOut.restart, ch, s1) => (OnceOut.restart, ch, s1)
    | (LoopOut.raised e, ch, s1) => (OnceOut.done (Except.error e), ch, s1)

/-- The tenacity retry scope around `_upload_file`
(`stop_after_attempt(3)`, `retry_if_exception_type(Exception)`): `rem` is the
number of re-attempts left in this scope (2 on entry, so 3 attempts total).
Because line 247 calls `self._upload_file`, which is the decorated function,
a rotation restart opens a fresh nested scope whose result (value or raised
`RetryError`) becomes the current attempt's outcome. On exhaustion the scope
raises `Exc.retryErr 3 e` where `e` is the last attempt's exception. `fuel`
only bounds the recursion and is ample at every call site. -/
def runScope (cfg : Cfg) (fp : String) (size : Nat) (inDir : Bool) :
    Nat → Nat → List ChunkEvent → S → Except Exc (Option Nat) × List ChunkEvent × S
  | 0, _, ch, s => (Except.error Exc.stuck, ch, s)
  | fuel + 1, rem, ch, s =>
    match uploadFileOnce cfg fp size inDir ch (s.log (Action.attemptStart fp)) with
    | (OnceOut.done (Except.ok v), ch1, s1) => (Except.ok v, ch1, s1)
    | (OnceOut.done (Except.error e), ch1, s1) =>
        match rem with
        | 0 => (Except.error (Exc.retryErr 3 e), ch1, s1)
        | r + 1 => runScope cfg fp size inDir fuel r ch1 s1
    | (OnceOut.restart, ch1, s1) =>
        match runScope cfg fp size inDir fuel 2 ch1 s1 with
        | (Except.ok v, ch2, s2) => (Except.ok v, ch2, s2)
        | (Except.error e, ch2, s2) =>
            match rem with
            | 0 => (Except.error (Exc.retryErr 3 e), ch2, s2)
            | r + 1 => runScope cfg fp size inDir fuel r ch2 s2

/-- A call of the decorated `_upload_file`: a fresh 3-attempt retry scope. -/
def uploadFileRetry (cfg : Cfg) (fp : String) (size : Nat) (inDir : Bool)
    (ch : List ChunkEvent) (s : S) : Except Exc (Option Nat) × List ChunkEvent × S :=
  runScope cfg fp size inDir (3 * ch.length + 9) 2 ch s

/-- A local filesystem entry as seen by `_upload_dir` via `listdir`. -/
inductive FsEntry where
  | file (name : String) (size : Nat)
  | dir (name : String) (entries : List FsEntry)
  deriving Repr

/-- The value held by `_upload_dir`'s `new_id` variable when not `None`:
a destination id, or the string `"filter"`. -/
inductive WalkRes where
  | destId (id : Nat)
  | filterMark
  deriving Repr, DecidableEq

/-- A pending `_upload_dir` computation: process one directory entry
(`entry`), run `_upload_dir` on a directory's listing (`dirCall`), or
continue the entry loop with the current `new_id` accumulator (`items`). -/
inductive WalkCall where
  | entry (base : String) (dest : Nat) (ent : FsEntry)
  | dirCall (base : String) (dest : Nat) (entries : List FsEntry)
  | items (base : String) (dest : Nat) (entries : List FsEntry)
      (acc : Option WalkRes)
  deriving Repr

/-- `_upload_dir` (lines 118-157). Per entry: a sub-directory gets a remote
folder, a recursive walk, and a folder-counter increment after the recursion
returns; a non-excluded file goes through the decorated `_upload_file` and
then the file counter is incremented; an excluded file is skipped, deleted
iff `not seed or new_dir`. After each entry one cancellation poll is read and
a true answer breaks the loop, returning the current `new_id`. An empty
listing returns the given destination id. Exceptions propagate. `fuel` only
bounds the recursion and is ample at every call site. -/
def walk (cfg : Cfg) :
    Nat → WalkCall → List ChunkEvent → S → Except Exc (Option WalkRes) × List ChunkEvent × S
  | 0, _, ch, s => (Except.error Exc.stuck, ch, s)
  | fuel + 1, WalkCall.entry base dest (FsEntry.dir name sub), ch, s =>
    let (cid, s1) := s.genId
    let s2 := s1.log (Action.createDir dest cid)
    match walk cfg fuel (WalkCall.dirCall (base ++ "/" ++ name) cid sub) ch s2 with
    | (Except.error e, ch1, s3) => (Except.error e, ch1, s3)
    | (Except.ok r, ch1, s3) =>
        (Except.ok r, ch1, { s3 with totalFolders := s3.totalFolders + 1 })
  | _ + 1, WalkCall.entry base dest (FsEntry.file name size), ch, s =>
    let path := base ++ "/" ++ name
    if path ∉ cfg.unwanted ∧ matchesFilter cfg.extFilter name = false then
      match uploadFileRetry cfg path size true ch s with
      | (Except.error e, ch1, s1) => (Except.error e, ch1, s1)
      | (Except.ok _, ch1, s1) =>
          (Except.ok (some (WalkRes.destId dest)), ch1,
           { s1 with totalFiles := s1.totalFiles + 1 })
    else
      let s1 := if cfg.seed = false ∨ cfg.newDir
                then s.log (Action.removeLocal path) else s
      (Except.ok (some WalkRes.filterMark), ch, s1)
  | fuel + 1, WalkCall.dirCall base dest entries, ch, s =>
    match entries with
    | [] => (Except.ok (some (WalkRes.destId dest)), ch, s)
    | _ :: _ => walk cfg fuel (WalkCall.items base dest entries none) ch s
  | _ + 1, WalkCall.items _ _ [] acc, ch, s => (Except.ok acc, ch, s)
  | fuel + 1, WalkCall.items base dest (ent :: rest) _, ch, s =>
    match walk cfg fuel (WalkCall.entry base dest ent) ch s with
    | (Except.error e, ch1, s1) => (Except.error e, ch1, s1)
    | (Except.ok r, ch1, s1) =>
        let c := readFlag s1.cancel
        let s2 : S := { s1 with cancel := s1.cancel.tail }
        if c then (Except.ok r, ch1, s2)
        else walk cfg fuel (WalkCall.items base dest rest r) ch1 s2

/-- The upload target: `ospath.isfile` distinguishes a regular file from a
directory whose listing is the given entry list. -/
inductive Target where
  | file (path : String) (size : Nat)
  | dirT (path : String) (entries : List FsEntry)
  deriving Repr

/-- `upload`'s `except` clause unwraps a `RetryError` to its last attempt's
exception (line 93) before reporting. -/
def unwrapRetry (e : Exc) : Exc :=
  match e with
  | Exc.retryErr _ last => last
  | e => e

/-- Report an error to the listener (`on_upload_error`) after unwrapping. -/
def reportErr (e : Exc) (s : S) : S := s.log (Action.onUploadError (unwrapRetry e))

/-- Everything `upload`'s `finally` clause needs from the `try` body. -/
structure MainOut where
  errored : Bool
  isFolder : Bool
  dirId : Option Nat
  link : Option Nat
  ch : List ChunkEvent
  s : S
  deriving Repr

/-- The `try`/`except` body of `upload` (lines 50-96): dispatch on the target
kind, apply the extension filter to a single-file target (raising an
exception), create the top-level remote folder for a directory target, raise
`manualCancel` when the transfer returned `None` uncancelled (file) or the
walker returned `None` (directory), and convert any exception into an
`on_upload_error` callback plus the errored flag. -/
def uploadMain (cfg : Cfg) (fuel : Nat) (t : Target) (ch : List ChunkEvent)
    (s : S) : MainOut :=
  match t with
  | Target.file path size =>
    if matchesFilter cfg.extFilter path then
      { errored := true, isFolder := false, dirId := none, link := none,
        ch := ch, s := reportErr Exc.extFiltered s }
    else
      match uploadFileRetry cfg path size false ch s with
      | (Except.error e, ch1, s1) =>
          { errored := true, isFolder := false, dirId := none, link := none,
            ch := ch1, s := reportErr e s1 }
      | (Except.ok lnk, ch1, s1) =>
          let c := readFlag s1.cancel
          let s2 : S := { s1 with cancel := s1.cancel.tail }
          if c then
            { errored := false, isFolder := false, dirId := none, link := lnk,
              ch := ch1, s := s2 }
          else
            match lnk with
            | none =>
                { errored := true, isFolder := false, dirId := none,
                  link := none, ch := ch1, s := reportErr Exc.manualCancel s2 }
            | some i =>
                { errored := false, isFolder := false, dirId := none,
                  link := some i, ch := ch1, s := s2 }
  | Target.dirT path entries =>
    let (did, s1) := s.genId
    let s2 := s1.log (Action.createDir cfg.upDest did)
    match walk cfg fuel (WalkCall.dirCall path did entries) ch s2 with
    | (Except.error e, ch1, s3) =>
        { errored := true, isFolder := true, dirId := some did, link := none,
          ch := ch1, s := reportErr e s3 }
    | (Except.ok none, ch1, s3) =>
        { errored := true, isFolder := true, dirId := some did, link := none,
          ch := ch1, s := reportErr Exc.manualCancel s3 }
    | (Except.ok (some _), ch1, s3) =>
        let s4 : S := { s3 with cancel := s3.cancel.tail }
        { errored := false, isFolder := true, dirId := some did,
          link := some did, ch := ch1, s := s4 }

/-- The `finally` clause of `upload` (lines 97-116): read the cancellation
flag once more; if it is set and no error occurred, delete the just-created
top-level remote folder when the target was a directory and return without
any callback; if an error occurred, return; otherwise invoke
`on_upload_complete` with the link and the job counters. -/
def uploadFinally (m : MainOut) : S :=
  let c := readFlag m.s.cancel
  let s1 : S := { m.s with cancel := m.s.cancel.tail }
  if c && !m.errored then
    match m.isFolder, m.dirId with
    | true, some did => s1.log (Action.deleteRemoteDir did)
    | _, _ => s1
  else if m.errored then s1
  else s1.log (Action.onUploadComplete m.link s1.totalFiles s1.totalFolders m.isFolder)

/-- The whole `upload` entry point. -/
def upload (cfg : Cfg) (fuel : Nat) (t : Target) (ch : List ChunkEvent)
    (s : S) : S :=
  uploadFinally (uploadMain cfg fuel t ch s)

/-- Number of `_upload_file` body runs recorded in a trace. -/
def countAttempts (l : List Action) : Nat :=
  l.countP (fun a => match a with | Action.attemptStart _ => true | _ => false)

/-- Number of local deletions of a given path recorded in a trace. -/
def countRemoves (p : String) (l : List Action) : Nat :=
  l.countP (fun a => a == Action.removeLocal p)

/-- A convenient all-defaults configuration for concrete runs. -/
def baseCfg : Cfg :=
  { seed := false, newDir := false, useSa := false, saNumber := 0,
    isTeamDrive := true, extFilter := [], unwanted := [], ftDelete := [],
    upDest := 0 }

end GdUpload

namespace GdUpload

/-- One chunk-loop step: a transient-status failure below the retry bound is
retried in place with the counter incremented. -/
theorem fileLoop_cons_transient (cfg : Cfg) (fp : String) (retries st : Nat)
    (ct rsn : String) (rest : List ChunkEvent) (s : S)
    (hc : readFlag s.cancel = false)
    (hst : st ∈ retryableStatuses) (hr : retries < 10) :
    fileLoop cfg fp retries (ChunkEvent.fail st ct rsn :: rest) s
      = fileLoop cfg fp (retries + 1) rest { s with cancel := s.cancel.tail } := by
  simp [fileLoop, hc, hst, hr]

/-- One chunk-loop step: a successful-but-unfinished chunk leaves the retry
counter unchanged. -/
theorem fileLoop_cons_progress (cfg : Cfg) (fp : String) (retries : Nat)
    (rest : List ChunkEvent) (s : S)
    (hc : readFlag s.cancel = false) :
    fileLoop cfg fp retries (ChunkEvent.progress :: rest) s
      = fileLoop cfg fp retries rest { s with cancel := s.cancel.tail } := by
  simp [fileLoop, hc]

/-- A run of `n` transient failures advances the retry counter by `n`. -/
theorem fileLoop_transient_chain (cfg : Cfg) (fp : String) (st : Nat)
    (ct rsn : String) (hst : st ∈ retryableStatuses) :
    ∀ (n k : Nat) (rest : List ChunkEvent) (s : S), s.cancel = [] → k + n ≤ 10 →
    fileLoop cfg fp k (List.replicate n (ChunkEvent.fail st ct rsn) ++ rest) s
      = fileLoop cfg fp (k + n) rest s := by
  intro n
  induction n with
  | zero => intro k rest s _ _; simp [List.replicate]
  | succ m ih =>
    intro k rest s hc hb
    have hcf : readFlag s.cancel = false := by simp [readFlag, hc]
    have hs : ({ s with cancel := s.cancel.tail } : S) = s := by
      cases s; simp_all
    rw [List.replicate_succ, List.cons_append,
        fileLoop_cons_transient cfg fp k st ct rsn _ s hcf hst (by omega), hs,
        ih (k + 1) rest s hc (by omega)]
    have : k + 1 + m = k + (m + 1) := by omega
    rw [this]

/-- Claim C1: when a chunk request fails with a quota/rate-limit reason, a
single-identity job (`use_sa` false) escalates the `HttpError` out of the
chunk loop to the outer retry policy; in credential-pool mode with a
successful rotation the loop signals a re-invocation of the decorated
`_upload_file`, i.e. a fresh full-file retry scope with the new credential,
whose success becomes the upload's result. -/
theorem c1_quota_failover (cfg : Cfg) (fp : String) (retries st : Nat)
    (ct rsn : String) (rest : List ChunkEvent) (s : S)
    (hc : readFlag s.cancel = false)
    (hnt : ¬(st ∈ retryableStatuses ∧ retries < 10))
    (hj : strStartsWith ct "application/json" = true)
    (hq : rsn ∈ quotaReasons) :
    (cfg.useSa = false →
      fileLoop cfg fp retries (ChunkEvent.fail st ct rsn :: rest) s
        = (LoopOut.raised (Exc.http st ct rsn), rest,
           { s with cancel := s.cancel.tail }))
    ∧ (cfg.useSa = true → s.saCount < cfg.saNumber →
        readFlag s.cancel.tail = false →
      fileLoop cfg fp retries (ChunkEvent.fail st ct rsn :: rest) s
        = (LoopOut.restart, rest,
           (switchAccount { s with cancel := s.cancel.tail.tail }).log
             (Action.restartFile fp)))
    ∧ (∀ (fuel rem size : Nat) (inDir : Bool) (ch ch1 ch2 : List ChunkEvent)
         (s0 s1 s2 : S) (v : Option Nat),
        uploadFileOnce cfg fp size inDir ch (s0.log (Action.attemptStart fp))
          = (OnceOut.restart, ch1, s1) →
        runScope cfg fp size inDir fuel 2 ch1 s1 = (Except.ok v, ch2, s2) →
        runScope cfg fp size inDir (fuel + 1) rem ch s0 = (Except.ok v, ch2, s2)) := by
  refine ⟨?_, ?_, ?_⟩
  · intro husa
    simp [fileLoop, hc, hj, hq, hnt, husa]
  · intro husa hlt hc2
    have hnle : ¬ cfg.saNumber ≤ s.saCount := by omega
    simp [fileLoop, hc, hj, hq, hnt, husa, hnle, hc2]
  · intro fuel rem size inDir ch ch1 ch2 s0 s1 s2 v h1 h2
    simp only [runScope, h1, h2]

/-- Witness for C1 at a concrete quota failure with a pool of capacity 1. -/
theorem c1_quota_failover_witness :
    fileLoop { baseCfg with useSa := true, saNumber := 1 } "f" 10
        [ChunkEvent.fail 403 "application/json" "userRateLimitExceeded"] (mkS [])
      = (LoopOut.restart, [],
         (switchAccount { mkS [] with cancel := [] }).log (Action.restartFile "f")) := by
  have h := c1_quota_failover { baseCfg with useSa := true, saNumber := 1 } "f" 10 403
    "application/json" "userRateLimitExceeded" [] (mkS [])
    rfl (by decide) (by decide) (by decide)
  exact h.2.1 rfl (by decide) rfl

/-- Claim C2 counterexample: a chunk failure with non-retryable status 404
and a non-JSON body is not escalated — the loop silently retries and even
finishes on the following chunk event. -/
theorem c2_counterexample :
    (fileLoop baseCfg "f" 0
        [ChunkEvent.fail 404 "text/html" "x", ChunkEvent.finalize 7]
        (mkS [])).1 = LoopOut.finalizedResp (some 7)
    ∧ (fileLoop baseCfg "f" 0
        [ChunkEvent.fail 404 "text/html" "x", ChunkEvent.finalize 7]
        (mkS [])).1 ≠ LoopOut.raised (Exc.http 404 "text/html" "x") := by
  exact ⟨rfl, by decide⟩

/-- Claim C2 amended: a chunk failure that is neither transient-in-bound nor
quota-reason escalates immediately only when the response body is
JSON-shaped; an `HttpError` whose `content-type` is not `application/json`
falls through the handler and the chunk loop silently continues. -/
theorem c2_unrecognized_errors (cfg : Cfg) (fp : String) (retries st : Nat)
    (ct rsn : String) (rest : List ChunkEvent) (s : S)
    (hc : readFlag s.cancel = false)
    (hnt : ¬(st ∈ retryableStatuses ∧ retries < 10)) :
    (strStartsWith ct "application/json" = true → rsn ∉ quotaReasons →
      fileLoop cfg fp retries (ChunkEvent.fail st ct rsn :: rest) s
        = (LoopOut.raised (Exc.http st ct rsn), rest,
           { s with cancel := s.cancel.tail }))
    ∧ (strStartsWith ct "application/json" = false →
      fileLoop cfg fp retries (ChunkEvent.fail st ct rsn :: rest) s
        = fileLoop cfg fp retries rest { s with cancel := s.cancel.tail }) := by
  constructor
  · intro hj hnq
    simp [fileLoop, hc, hj, hnt, hnq]
  · intro hj
    simp [fileLoop, hc, hj, hnt]

/-- Witness for the amended C2 at a concrete JSON-shaped unrecognized error. -/
theorem c2_unrecognized_errors_witness :
    fileLoop baseCfg "f" 3 [ChunkEvent.fail 404 "application/json" "notFound"] (mkS [])
      = (LoopOut.raised (Exc.http 404 "application/json" "notFound"), [], mkS []) := by
  have h := c2_unrecognized_errors baseCfg "f" 3 404 "application/json" "notFound"
    [] (mkS []) rfl (by decide)
  exact h.1 (by decide) (by decide)

/-- Claim C4: with the pool already at capacity (`sa_count >= sa_number`),
a rotation attempt raises the original quota `HttpError` unchanged; below
capacity a successful rotation increments the used counter by one, so
starting from zero the `sa_number + 1`-th rotation attempt always reports
exhaustion. -/
theorem c4_rotation_exhaustion (cfg : Cfg) (fp : String) (retries st : Nat)
    (ct rsn : String) (rest : List ChunkEvent) (s : S)
    (hc : readFlag s.cancel = false)
    (hnt : ¬(st ∈ retryableStatuses ∧ retries < 10))
    (hj : strStartsWith ct "application/json" = true)
    (hq : rsn ∈ quotaReasons)
    (husa : cfg.useSa = true) :
    (cfg.saNumber ≤ s.saCount →
      fileLoop cfg fp retries (ChunkEvent.fail st ct rsn :: rest) s
        = (LoopOut.raised (Exc.http st ct rsn), rest,
           { s with cancel := s.cancel.tail }))
    ∧ (s.saCount < cfg.saNumber → readFlag s.cancel.tail = false →
      ((fileLoop cfg fp retries (ChunkEvent.fail st ct rsn :: rest) s).2.2).saCount
        = s.saCount + 1) := by
  constructor
  · intro hle
    simp [fileLoop, hc, hj, hq, hnt, husa, hle]
  · intro hlt hc2
    have hnle : ¬ cfg.saNumber ≤ s.saCount := by omega
    simp [fileLoop, hc, hj, hq, hnt, husa, hnle, hc2, switchAccount, S.log]

/-- Witness for C4 at concrete capacity 2 with the pool exhausted. -/
theorem c4_rotation_exhaustion_witness :
    fileLoop { baseCfg with useSa := true, saNumber := 2 } "f" 10
        [ChunkEvent.fail 403 "application/json" "dailyLimitExceeded"]
        { mkS [] with saCount := 2 }
      = (LoopOut.raised (Exc.http 403 "application/json" "dailyLimitExceeded"), [],
         { mkS [] with saCount := 2 }) := by
  have h := c4_rotation_exhaustion { baseCfg with useSa := true, saNumber := 2 }
    "f" 10 403 "application/json" "dailyLimitExceeded" []
    { mkS [] with saCount := 2 } rfl (by decide) (by decide) (by decide) rfl
  exact h.1 (by decide)

/-- Claim C8 counterexample: the `retries` counter is shared across chunks
within one session. After the first chunk consumed all 10 in-place retries
and a later chunk completed, the next chunk's first transient 503 failure is
escalated instead of being retried with a fresh per-chunk budget. -/
theorem c8_counterexample :
    fileLoop baseCfg "f" 0
        (List.replicate 10 (ChunkEvent.fail 503 "" "")
          ++ [ChunkEvent.progress,
              ChunkEvent.fail 503 "application/json" "backendError"])
        (mkS [])
      = (LoopOut.raised (Exc.http 503 "application/json" "backendError"), [],
         mkS []) := by
  rw [fileLoop_transient_chain baseCfg "f" 503 "" "" (by decide) 10 0
      [ChunkEvent.progress, ChunkEvent.fail 503 "application/json" "backendError"]
      (mkS []) rfl (by decide)]
  rfl

/-- Claim C8 amended: a transient-status chunk failure is retried in place
while the single per-session counter is below 10, incrementing that counter;
the counter is not reset when a chunk completes (a `progress` outcome leaves
it unchanged), so the bound is per upload attempt, not per chunk; and once
the counter has reached the bound, a transient-status failure with a
JSON-shaped non-quota body escalates instead of being retried. -/
theorem c8_session_retry_counter (cfg : Cfg) (fp : String) :
    (∀ (retries st : Nat) (ct rsn : String) (rest : List ChunkEvent) (s : S),
      readFlag s.cancel = false →
      st ∈ retryableStatuses → retries < 10 →
      fileLoop cfg fp retries (ChunkEvent.fail st ct rsn :: rest) s
        = fileLoop cfg fp (retries + 1) rest { s with cancel := s.cancel.tail })
    ∧ (∀ (retries : Nat) (rest : List ChunkEvent) (s : S),
      readFlag s.cancel = false →
      fileLoop cfg fp retries (ChunkEvent.progress :: rest) s
        = fileLoop cfg fp retries rest { s with cancel := s.cancel.tail })
    ∧ (∀ (retries st : Nat) (ct rsn : String) (rest : List ChunkEvent) (s : S),
      readFlag s.cancel = false →
      st ∈ retryableStatuses → ¬ retries < 10 →
      strStartsWith ct "application/json" = true → rsn ∉ quotaReasons →
      fileLoop cfg fp retries (ChunkEvent.fail st ct rsn :: rest) s
        = (LoopOut.raised (Exc.http st ct rsn), rest,
           { s with cancel := s.cancel.tail })) := by
  refine ⟨fun retries st ct rsn rest s hc hst hr =>
      fileLoop_cons_transient cfg fp retries st ct rsn rest s hc hst hr,
    fun retries rest s hc =>
      fileLoop_cons_progress cfg fp retries rest s hc, ?_⟩
  intro retries st ct rsn rest s hc hst hr hj hnq
  have hnt : ¬(st ∈ retryableStatuses ∧ retries < 10) := fun hcontra => hr hcontra.2
  simp [fileLoop, hc, hnt, hj, hnq]

/-- Witness for the amended C8 at a concrete transient failure, and at a
concrete escalation once the shared counter has reached the bound. -/
theorem c8_session_retry_counter_witness :
    fileLoop baseCfg "f" 9 [ChunkEvent.fail 429 "" ""] (mkS [])
      = fileLoop baseCfg "f" 10 [] (mkS [])
    ∧ fileLoop baseCfg "f" 10
        [ChunkEvent.fail 503 "application/json" "backendError"] (mkS [])
      = (LoopOut.raised (Exc.http 503 "application/json" "backendError"), [],
         mkS []) := by
  constructor
  · exact (c8_session_retry_counter baseCfg "f").1 9 429 "" "" [] (mkS [])
      rfl (by decide) (by decide)
  · exact (c8_session_retry_counter baseCfg "f").2.2 10 503 "application/json"
      "backendError" [] (mkS []) rfl (by decide) (by decide) (by decide)
      (by decide)

/-- A cancellation read at the loop condition ends the loop with a `None`
response without consuming chunk events. -/
theorem fileLoop_cancelled (cfg : Cfg) (fp : String) (retries : Nat)
    (ch : List ChunkEvent) (s : S) (hc1 : readFlag s.cancel = true) :
    fileLoop cfg fp retries ch s
      = (LoopOut.finalizedResp none, ch, { s with cancel := s.cancel.tail }) := by
  rw [fileLoop.eq_def]
  simp [hc1]

/-- Claim C5: when the finally-clause reads the cancellation flag as set and
no error occurred, `upload` invokes neither callback — it only issues the
best-effort remote-folder deletion for a directory target; and the transfer
client returns `None` when cancellation is observed in the chunk loop,
which is neither a link nor an error. `upload` always routes through this
finally-clause. -/
theorem c5_cancellation_is_silent :
    (∀ m : MainOut, m.errored = false → readFlag m.s.cancel = true →
      (m.isFolder = false →
        uploadFinally m = { m.s with cancel := m.s.cancel.tail })
      ∧ (∀ did : Nat, m.isFolder = true → m.dirId = some did →
        uploadFinally m
          = ({ m.s with cancel := m.s.cancel.tail }).log
              (Action.deleteRemoteDir did)))
    ∧ (∀ (cfg : Cfg) (fp : String) (size : Nat) (inDir : Bool)
        (ch : List ChunkEvent) (s : S), size ≠ 0 →
        readFlag s.cancel = true → readFlag s.cancel.tail = true →
        uploadFileOnce cfg fp size inDir ch s
          = (OnceOut.done (Except.ok none), ch,
             { s with cancel := s.cancel.tail.tail }))
    ∧ (∀ (cfg : Cfg) (fuel : Nat) (t : Target) (ch : List ChunkEvent) (s : S),
        upload cfg fuel t ch s = uploadFinally (uploadMain cfg fuel t ch s)) := by
  refine ⟨?_, ?_, ?_⟩
  · intro m herr hcan
    constructor
    · intro hf
      simp [uploadFinally, herr, hcan, hf]
    · intro did hf hd
      simp [uploadFinally, herr, hcan, hf, hd]
  · intro cfg fp size inDir ch s hsz hc1 hc2
    rw [uploadFileOnce, if_neg hsz, fileLoop_cancelled cfg fp 0 ch s hc1]
    simp [afterLoop, hc2]
  · intro cfg fuel t ch s
    rfl

/-- Witness for C5: a cancelled, unerrored directory job rolls back the
top-level folder and reports nothing, and a cancelled chunk loop gives a
`None` return. -/
theorem c5_cancellation_is_silent_witness :
    uploadFinally
        { errored := false, isFolder := true, dirId := some 4, link := some 4,
          ch := [], s := mkS [true] }
      = ({ mkS [true] with cancel := [] }).log (Action.deleteRemoteDir 4)
    ∧ uploadFileOnce baseCfg "f" 1 false [] (mkS [true, true])
      = (OnceOut.done (Except.ok none), [], { mkS [true, true] with cancel := [] }) := by
  constructor
  · exact ((c5_cancellation_is_silent.1
      { errored := false, isFolder := true, dirId := some 4, link := some 4,
        ch := [], s := mkS [true] } rfl rfl).2 4 rfl rfl)
  · exact c5_cancellation_is_silent.2.1 baseCfg "f" 1 false [] (mkS [true, true])
      (by decide) rfl rfl

/-- Claim C6 counterexample: a zero-length file takes the non-resumable path
and is never deleted locally, even though the deletion policy allows deletion
(`seed` is false here) and the upload succeeded with a link. -/
theorem c6_counterexample :
    uploadFileOnce baseCfg "f.bin" 0 false [] (mkS [])
      = (OnceOut.done (Except.ok (some 0)), [], { mkS [] with nextId := 1 })
    ∧ Action.removeLocal "f.bin"
        ∉ ((uploadFileOnce baseCfg "f.bin" 0 false [] (mkS [])).2.2).acts := by
  exact ⟨rfl, by decide⟩

/-- Claim C6 amended: on the resumable path, once the loop has ended and the
post-loop cancellation read is false, the local file is deleted exactly once
iff `not seed or new_dir or file_path in ft_delete`; a cancelled post-loop
read deletes nothing and returns `None`; the zero-size non-resumable path
never deletes the local file. -/
theorem c6_deletion_policy (cfg : Cfg) (fp : String) (inDir : Bool)
    (resp : Option Nat) (s : S) (hc : readFlag s.cancel = false) :
    (countRemoves fp (((afterLoop cfg fp inDir resp s).2).acts)
       = countRemoves fp s.acts
         + (if cfg.seed = false ∨ cfg.newDir = true ∨ fp ∈ cfg.ftDelete
            then 1 else 0))
    ∧ (∀ s' : S, readFlag s'.cancel = true →
        afterLoop cfg fp inDir resp s'
          = (OnceOut.done (Except.ok none), { s' with cancel := s'.cancel.tail }))
    ∧ (∀ s0 : S, countRemoves fp (((zeroSizeCreate cfg s0).2).acts)
        = countRemoves fp s0.acts) := by
  refine ⟨?_, ?_, ?_⟩
  · unfold afterLoop
    by_cases hpol : cfg.seed = false ∨ cfg.newDir = true ∨ fp ∈ cfg.ftDelete
    · cases resp with
      | none =>
        simp [hc, hpol, S.log, countRemoves, List.countP_append]
      | some i =>
        by_cases htd : cfg.isTeamDrive <;> by_cases hin : inDir <;>
          simp [hc, hpol, htd, hin, S.log, countRemoves, List.countP_append]
    · cases resp with
      | none =>
        simp [hc, hpol, S.log, countRemoves, List.countP_append]
      | some i =>
        by_cases htd : cfg.isTeamDrive <;> by_cases hin : inDir <;>
          simp [hc, hpol, htd, hin, S.log, countRemoves, List.countP_append]
  · intro s' hcan
    simp [afterLoop, hcan]
  · intro s0
    unfold zeroSizeCreate
    by_cases htd : cfg.isTeamDrive <;>
      simp [htd, S.genId, S.log, countRemoves, List.countP_append]

/-- Witness for the amended C6: with `seed` false the completed resumable
upload deletes the file once; a zero-size run deletes nothing. -/
theorem c6_deletion_policy_witness :
    countRemoves "p/f" (((afterLoop baseCfg "p/f" true (some 3) (mkS [])).2).acts) = 1
    ∧ countRemoves "p/f" (((zeroSizeCreate baseCfg (mkS [])).2).acts) = 0 := by
  have h := c6_deletion_policy baseCfg "p/f" true (some 3) (mkS []) rfl
  constructor
  · have h1 := h.1
    simp only [show (baseCfg.seed = false ∨ baseCfg.newDir = true
        ∨ "p/f" ∈ baseCfg.ftDelete) from Or.inl rfl] at h1
    simpa using h1
  · simpa using h.2.2 (mkS [])


theorem countAttempts_append (l r : List Action) :
    countAttempts (l ++ r) = countAttempts l + countAttempts r := by
  simp [countAttempts, List.countP_append]

theorem fileLoop_attempts (cfg : Cfg) (fp : String) :
    ∀ (ch : List ChunkEvent) (retries : Nat) (s : S),
      countAttempts (((fileLoop cfg fp retries ch s).2.2).acts)
        = countAttempts s.acts := by
  intro ch
  induction ch with
  | nil =>
    intro retries s
    rw [fileLoop.eq_def]
    by_cases hc : readFlag s.cancel = true <;> simp [hc]
  | cons e rest ih =>
    intro retries s
    rw [fileLoop.eq_def]
    by_cases hc : readFlag s.cancel = true
    · simp [hc]
    · cases e with
      | progress => simp [hc, ih]
      | finalize i => simp [hc]
      | fail st ct rsn =>
        by_cases h1 : st ∈ retryableStatuses ∧ retries < 10
        · simp [hc, h1, ih]
        · by_cases h2 : strStartsWith ct "application/json" = true
          · by_cases h3 : rsn ∈ quotaReasons
            · by_cases h4 : cfg.useSa
              · by_cases h5 : cfg.saNumber ≤ s.saCount
                · simp [hc, h1, h2, h3, h4, h5]
                · by_cases h6 : readFlag s.cancel.tail = true
                  · simp [hc, h1, h2, h3, h4, h5, h6]
                  · simp [hc, h1, h2, h3, h4, h5, h6, switchAccount, S.log,
                      countAttempts, List.countP_append]
              · simp [hc, h1, h2, h3, h4]
            · simp [hc, h1, h2, h3]
          · simp [hc, h1, h2, ih]

theorem afterLoop_attempts (cfg : Cfg) (fp : String) (inDir : Bool)
    (resp : Option Nat) (s : S) :
    countAttempts (((afterLoop cfg fp inDir resp s).2).acts)
      = countAttempts s.acts := by
  unfold afterLoop
  by_cases hc : readFlag s.cancel = true
  · simp [hc]
  · by_cases hpol : cfg.seed = false ∨ cfg.newDir = true ∨ fp ∈ cfg.ftDelete <;>
      cases resp <;>
      · by_cases htd : cfg.isTeamDrive <;> by_cases hin : inDir <;>
          simp [hc, hpol, htd, hin, S.log, countAttempts, List.countP_append]

theorem zeroSizeCreate_attempts (cfg : Cfg) (s : S) :
    countAttempts (((zeroSizeCreate cfg s).2).acts) = countAttempts s.acts := by
  unfold zeroSizeCreate
  by_cases htd : cfg.isTeamDrive <;>
    simp [htd, S.genId, S.log, countAttempts, List.countP_append]

theorem uploadFileOnce_attempts (cfg : Cfg) (fp : String) (size : Nat)
    (inDir : Bool) (ch : List ChunkEvent) (s : S) :
    countAttempts (((uploadFileOnce cfg fp size inDir ch s).2.2).acts)
      = countAttempts s.acts := by
  unfold uploadFileOnce
  by_cases hsz : size = 0
  · simp [hsz, zeroSizeCreate_attempts]
  · rcases hfl : fileLoop cfg fp 0 ch s with ⟨lo, ch1, s1⟩
    have hfa := fileLoop_attempts cfg fp ch 0 s
    rw [hfl] at hfa
    cases lo <;> simp [hsz, hfl, hfa, afterLoop_attempts]

theorem countAttempts_log_attempt (s : S) (p : String) :
    countAttempts ((s.log (Action.attemptStart p)).acts)
      = countAttempts s.acts + 1 := by
  simp [S.log, countAttempts, List.countP_append]

/-- Claim C3: one application of the retry policy makes exactly 3 attempts:
three failing body runs produce the `RetryError` wrapper carrying the third
attempt's exception, two failures followed by a success produce that success,
and in both cases exactly 3 attempt starts are recorded; the orchestrator
unwraps the wrapper and reports the third attempt's underlying error to the
listener, never the wrapper itself. -/
theorem c3_retry_policy (cfg : Cfg) (fp : String) (size : Nat) (inDir : Bool) :
    (∀ (fuel : Nat) (ch0 ch1 ch2 ch3 : List ChunkEvent) (s0 s1 s2 s3 : S)
       (e1 e2 e3 : Exc),
      uploadFileOnce cfg fp size inDir ch0 (s0.log (Action.attemptStart fp))
        = (OnceOut.done (Except.error e1), ch1, s1) →
      uploadFileOnce cfg fp size inDir ch1 (s1.log (Action.attemptStart fp))
        = (OnceOut.done (Except.error e2), ch2, s2) →
      uploadFileOnce cfg fp size inDir ch2 (s2.log (Action.attemptStart fp))
        = (OnceOut.done (Except.error e3), ch3, s3) →
      runScope cfg fp size inDir (fuel + 3) 2 ch0 s0
        = (Except.error (Exc.retryErr 3 e3), ch3, s3)
      ∧ countAttempts s3.acts = countAttempts s0.acts + 3)
    ∧ (∀ (fuel : Nat) (ch0 ch1 ch2 ch3 : List ChunkEvent) (s0 s1 s2 s3 : S)
       (e1 e2 : Exc) (v : Option Nat),
      uploadFileOnce cfg fp size inDir ch0 (s0.log (Action.attemptStart fp))
        = (OnceOut.done (Except.error e1), ch1, s1) →
      uploadFileOnce cfg fp size inDir ch1 (s1.log (Action.attemptStart fp))
        = (OnceOut.done (Except.error e2), ch2, s2) →
      uploadFileOnce cfg fp size inDir ch2 (s2.log (Action.attemptStart fp))
        = (OnceOut.done (Except.ok v), ch3, s3) →
      runScope cfg fp size inDir (fuel + 3) 2 ch0 s0 = (Except.ok v, ch3, s3)
      ∧ countAttempts s3.acts = countAttempts s0.acts + 3)
    ∧ (∀ (fuel sz : Nat) (path : String) (ch ch1 : List ChunkEvent)
       (s s1 : S) (e : Exc),
      matchesFilter cfg.extFilter path = false →
      uploadFileRetry cfg path sz false ch s
        = (Except.error (Exc.retryErr 3 e), ch1, s1) →
      (uploadMain cfg fuel (Target.file path sz) ch s).s
        = s1.log (Action.onUploadError e)) := by
  refine ⟨?_, ?_, ?_⟩
  · intro fuel ch0 ch1 ch2 ch3 s0 s1 s2 s3 e1 e2 e3 h1 h2 h3
    have a1 : countAttempts s1.acts = countAttempts s0.acts + 1 := by
      have hh := uploadFileOnce_attempts cfg fp size inDir ch0
        (s0.log (Action.attemptStart fp))
      rw [h1] at hh
      simpa [countAttempts_log_attempt] using hh
    have a2 : countAttempts s2.acts = countAttempts s1.acts + 1 := by
      have hh := uploadFileOnce_attempts cfg fp size inDir ch1
        (s1.log (Action.attemptStart fp))
      rw [h2] at hh
      simpa [countAttempts_log_attempt] using hh
    have a3 : countAttempts s3.acts = countAttempts s2.acts + 1 := by
      have hh := uploadFileOnce_attempts cfg fp size inDir ch2
        (s2.log (Action.attemptStart fp))
      rw [h3] at hh
      simpa [countAttempts_log_attempt] using hh
    refine ⟨?_, by omega⟩
    have step3 : runScope cfg fp size inDir (fuel + 3) 2 ch0 s0
        = runScope cfg fp size inDir (fuel + 2) 1 ch1 s1 := by
      rw [show fuel + 3 = (fuel + 2) + 1 from by omega]
      simp only [runScope, h1]
    have step2 : runScope cfg fp size inDir (fuel + 2) 1 ch1 s1
        = runScope cfg fp size inDir (fuel + 1) 0 ch2 s2 := by
      rw [show fuel + 2 = (fuel + 1) + 1 from by omega]
      simp only [runScope, h2]
    have step1 : runScope cfg fp size inDir (fuel + 1) 0 ch2 s2
        = (Except.error (Exc.retryErr 3 e3), ch3, s3) := by
      simp only [runScope, h3]
    rw [step3, step2, step1]
  · intro fuel ch0 ch1 ch2 ch3 s0 s1 s2 s3 e1 e2 v h1 h2 h3
    have a1 : countAttempts s1.acts = countAttempts s0.acts + 1 := by
      have hh := uploadFileOnce_attempts cfg fp size inDir ch0
        (s0.log (Action.attemptStart fp))
      rw [h1] at hh
      simpa [countAttempts_log_attempt] using hh
    have a2 : countAttempts s2.acts = countAttempts s1.acts + 1 := by
      have hh := uploadFileOnce_attempts cfg fp size inDir ch1
        (s1.log (Action.attemptStart fp))
      rw [h2] at hh
      simpa [countAttempts_log_attempt] using hh
    have a3 : countAttempts s3.acts = countAttempts s2.acts + 1 := by
      have hh := uploadFileOnce_attempts cfg fp size inDir ch2
        (s2.log (Action.attemptStart fp))
      rw [h3] at hh
      simpa [countAttempts_log_attempt] using hh
    refine ⟨?_, by omega⟩
    have step3 : runScope cfg fp size inDir (fuel + 3) 2 ch0 s0
        = runScope cfg fp size inDir (fuel + 2) 1 ch1 s1 := by
      rw [show fuel + 3 = (fuel + 2) + 1 from by omega]
      simp only [runScope, h1]
    have step2 : runScope cfg fp size inDir (fuel + 2) 1 ch1 s1
        = runScope cfg fp size inDir (fuel + 1) 0 ch2 s2 := by
      rw [show fuel + 2 = (fuel + 1) + 1 from by omega]
      simp only [runScope, h2]
    have step1 : runScope cfg fp size inDir (fuel + 1) 0 ch2 s2
        = (Except.ok v, ch3, s3) := by
      rw [show fuel + 1 = fuel + 1 from rfl]
      simp only [runScope, h3]
    rw [step3, step2, step1]
  · intro fuel sz path ch ch1 s s1 e hfil hret
    simp [uploadMain, hfil, hret, reportErr, unwrapRetry]

theorem c3_retry_policy_witness :
    runScope baseCfg "f" 1 false (0 + 3) 2
        [ChunkEvent.fail 404 "application/json" "notFound",
         ChunkEvent.fail 404 "application/json" "notFound",
         ChunkEvent.fail 404 "application/json" "notFound"] (mkS [])
      = (Except.error
           (Exc.retryErr 3 (Exc.http 404 "application/json" "notFound")), [],
         (((mkS []).log (Action.attemptStart "f")).log
             (Action.attemptStart "f")).log (Action.attemptStart "f"))
    ∧ (uploadMain baseCfg 0 (Target.file "x" 1)
        [ChunkEvent.fail 404 "application/json" "notFound",
         ChunkEvent.fail 404 "application/json" "notFound",
         ChunkEvent.fail 404 "application/json" "notFound"] (mkS [])).s
      = ((((mkS []).log (Action.attemptStart "x")).log
            (Action.attemptStart "x")).log (Action.attemptStart "x")).log
          (Action.onUploadError (Exc.http 404 "application/json" "notFound")) := by
  constructor
  · exact ((c3_retry_policy baseCfg "f" 1 false).1 0
      [ChunkEvent.fail 404 "application/json" "notFound",
       ChunkEvent.fail 404 "application/json" "notFound",
       ChunkEvent.fail 404 "application/json" "notFound"]
      [ChunkEvent.fail 404 "application/json" "notFound",
       ChunkEvent.fail 404 "application/json" "notFound"]
      [ChunkEvent.fail 404 "application/json" "notFound"] []
      (mkS []) ((mkS []).log (Action.attemptStart "f"))
      (((mkS []).log (Action.attemptStart "f")).log (Action.attemptStart "f"))
      ((((mkS []).log (Action.attemptStart "f")).log
          (Action.attemptStart "f")).log (Action.attemptStart "f"))
      (Exc.http 404 "application/json" "notFound")
      (Exc.http 404 "application/json" "notFound")
      (Exc.http 404 "application/json" "notFound")
      rfl rfl rfl).1
  · exact (c3_retry_policy baseCfg "x" 0 false).2.2 0 1 "x"
      [ChunkEvent.fail 404 "application/json" "notFound",
       ChunkEvent.fail 404 "application/json" "notFound",
       ChunkEvent.fail 404 "application/json" "notFound"] []
      (mkS [])
      ((((mkS []).log (Action.attemptStart "x")).log
          (Action.attemptStart "x")).log (Action.attemptStart "x"))
      (Exc.http 404 "application/json" "notFound") rfl rfl

/-- A directory-walk file entry matching the exclusion policy is skipped:
no transfer, no callback, local deletion iff `not seed or new_dir`. -/
theorem walk_entry_filtered (cfg : Cfg) (fuel : Nat) (base : String)
    (dest : Nat) (name : String) (size : Nat) (ch : List ChunkEvent) (s : S)
    (hf : (base ++ "/" ++ name) ∈ cfg.unwanted
          ∨ matchesFilter cfg.extFilter name = true) :
    walk cfg (fuel + 1) (WalkCall.entry base dest (FsEntry.file name size)) ch s
      = (Except.ok (some WalkRes.filterMark), ch,
         if cfg.seed = false ∨ cfg.newDir = true
         then s.log (Action.removeLocal (base ++ "/" ++ name)) else s) := by
  have hnp : ¬((base ++ "/" ++ name) ∉ cfg.unwanted
      ∧ matchesFilter cfg.extFilter name = false) := by
    intro hcontra
    rcases hf with h | h
    · exact hcontra.1 h
    · rw [h] at hcontra
      exact absurd hcontra.2 (by simp)
  simp only [walk, if_neg hnp]

/-- Claim C7 counterexample: with an empty chunk script (so no file can ever
finalize) and cancellation observed during the single file's chunk loop, the
walker still increments `total_files` to 1 — the counter counts entries whose
transfer call returned, not confirmed successful transfers. -/
theorem c7_counterexample :
    walk baseCfg 9 (WalkCall.dirCall "d" 5 [FsEntry.file "a" 1]) []
        (mkS [true, true, true])
      = (Except.ok (some (WalkRes.destId 5)), [],
         { cancel := [], saCount := 0, totalFiles := 1, totalFolders := 0,
           nextId := 0, acts := [Action.attemptStart "d/a"] }) := by
  rfl

/-- Claim C7 amended: the walker's counters are incremented once per
processed entry after its transfer or recursion call returns — a file entry
increments `total_files` even when its transfer was cancelled mid-flight and
returned `None`, and a directory entry increments `total_folders` once its
recursive walk returns — never for a filter-skipped entry; and once the
per-entry cancellation poll reads true, the remaining entries are not
processed at all. -/
theorem c7_counter_increments (cfg : Cfg) (base : String) (dest : Nat) :
    (∀ (fuel : Nat) (name : String) (size : Nat) (ch : List ChunkEvent) (s : S),
      ((base ++ "/" ++ name) ∈ cfg.unwanted
        ∨ matchesFilter cfg.extFilter name = true) →
      ((walk cfg (fuel + 1)
          (WalkCall.entry base dest (FsEntry.file name size)) ch s).2.2).totalFiles
        = s.totalFiles
      ∧ ((walk cfg (fuel + 1)
          (WalkCall.entry base dest (FsEntry.file name size)) ch s).2.2).totalFolders
        = s.totalFolders)
    ∧ (∀ (fuel : Nat) (name : String) (size : Nat) (ch ch1 : List ChunkEvent)
        (s s1 : S) (v : Option Nat),
      (base ++ "/" ++ name) ∉ cfg.unwanted →
      matchesFilter cfg.extFilter name = false →
      uploadFileRetry cfg (base ++ "/" ++ name) size true ch s
        = (Except.ok v, ch1, s1) →
      walk cfg (fuel + 1) (WalkCall.entry base dest (FsEntry.file name size)) ch s
        = (Except.ok (some (WalkRes.destId dest)), ch1,
           { s1 with totalFiles := s1.totalFiles + 1 }))
    ∧ (∀ (fuel : Nat) (ent : FsEntry) (rest : List FsEntry)
        (acc r : Option WalkRes) (ch ch1 : List ChunkEvent) (s s1 : S),
      walk cfg fuel (WalkCall.entry base dest ent) ch s = (Except.ok r, ch1, s1) →
      readFlag s1.cancel = true →
      walk cfg (fuel + 1) (WalkCall.items base dest (ent :: rest) acc) ch s
        = (Except.ok r, ch1, { s1 with cancel := s1.cancel.tail }))
    ∧ (∀ (fuel : Nat) (name : String) (sub : List FsEntry) (r : Option WalkRes)
        (ch ch1 : List ChunkEvent) (s s3 : S),
      walk cfg fuel (WalkCall.dirCall (base ++ "/" ++ name) s.nextId sub) ch
          (({ s with nextId := s.nextId + 1 }).log (Action.createDir dest s.nextId))
        = (Except.ok r, ch1, s3) →
      walk cfg (fuel + 1) (WalkCall.entry base dest (FsEntry.dir name sub)) ch s
        = (Except.ok r, ch1, { s3 with totalFolders := s3.totalFolders + 1 })) := by
  refine ⟨?_, ?_, ?_, ?_⟩
  · intro fuel name size ch s hf
    rw [walk_entry_filtered cfg fuel base dest name size ch s hf]
    by_cases hdel : cfg.seed = false ∨ cfg.newDir = true <;>
      simp [hdel, S.log]
  · intro fuel name size ch ch1 s s1 v h1 h2 hret
    simp only [walk, if_pos (And.intro h1 h2), hret]
  · intro fuel ent rest acc r ch ch1 s s1 hent hcan
    simp only [walk, hent, hcan]
    simp
  · intro fuel name sub r ch ch1 s s3 hrec
    simp only [walk, S.genId, hrec]

/-- Witness for the amended C7: a filtered entry leaves both counters
untouched; a cancelled-mid-transfer entry is nevertheless counted; a
directory entry whose recursion returned increments the folder counter. -/
theorem c7_counter_increments_witness :
    ((walk { baseCfg with extFilter := [".zip"] } 9
        (WalkCall.entry "d" 5 (FsEntry.file "b.zip" 3)) [] (mkS [])).2.2).totalFiles
      = (mkS []).totalFiles
    ∧ walk baseCfg 9 (WalkCall.entry "d" 5 (FsEntry.file "a" 1)) []
        (mkS [true, true])
      = (Except.ok (some (WalkRes.destId 5)), [],
         { cancel := [], saCount := 0, totalFiles := 0 + 1, totalFolders := 0,
           nextId := 0, acts := [Action.attemptStart "d/a"] })
    ∧ walk baseCfg 9 (WalkCall.entry "d" 5 (FsEntry.dir "sub" [])) [] (mkS [])
      = (Except.ok (some (WalkRes.destId 0)), [],
         { cancel := [], saCount := 0, totalFiles := 0, totalFolders := 0 + 1,
           nextId := 1, acts := [Action.createDir 5 0] }) := by
  refine ⟨?_, ?_, ?_⟩
  · exact ((c7_counter_increments { baseCfg with extFilter := [".zip"] } "d" 5).1
      8 "b.zip" 3 [] (mkS []) (Or.inr (by decide))).1
  · exact (c7_counter_increments baseCfg "d" 5).2.1 8 "a" 1 [] []
      (mkS [true, true])
      { cancel := [], saCount := 0, totalFiles := 0, totalFolders := 0,
        nextId := 0, acts := [Action.attemptStart "d/a"] }
      none (by decide) (by decide) rfl
  · exact (c7_counter_increments baseCfg "d" 5).2.2.2 8 "sub" []
      (some (WalkRes.destId 0)) [] [] (mkS [])
      { cancel := [], saCount := 0, totalFiles := 0, totalFolders := 0,
        nextId := 1, acts := [Action.createDir 5 0] } rfl

/-- Claim C9 counterexample: a single-file upload target matching the
extension filter is not silently skipped — `upload` raises and reports
"This file extension is excluded by extension filter!" through the error
callback. -/
theorem c9_counterexample :
    upload { baseCfg with extFilter := [".zip"] } 0 (Target.file "x.zip" 5) []
        (mkS [])
      = { mkS [] with acts := [Action.onUploadError Exc.extFiltered] }
    ∧ Action.onUploadError Exc.extFiltered
        ∈ (upload { baseCfg with extFilter := [".zip"] } 0
            (Target.file "x.zip" 5) [] (mkS [])).acts := by
  exact ⟨rfl, by decide⟩

/-- Claim C9 amended: inside a directory walk an excluded file is silently
skipped — no transfer, no error, only the policy deletion; but a single-file
upload target matching the extension filter raises an exclusion exception
that is reported to the listener as an upload error. -/
theorem c9_exclusion_handling (cfg : Cfg) :
    (∀ (fuel : Nat) (base : String) (dest : Nat) (name : String) (size : Nat)
       (ch : List ChunkEvent) (s : S),
      ((base ++ "/" ++ name) ∈ cfg.unwanted
        ∨ matchesFilter cfg.extFilter name = true) →
      walk cfg (fuel + 1) (WalkCall.entry base dest (FsEntry.file name size)) ch s
        = (Except.ok (some WalkRes.filterMark), ch,
           if cfg.seed = false ∨ cfg.newDir = true
           then s.log (Action.removeLocal (base ++ "/" ++ name)) else s))
    ∧ (∀ (fuel size : Nat) (path : String) (ch : List ChunkEvent) (s : S),
      matchesFilter cfg.extFilter path = true →
      uploadMain cfg fuel (Target.file path size) ch s
        = { errored := true, isFolder := false, dirId := none, link := none,
            ch := ch, s := s.log (Action.onUploadError Exc.extFiltered) }) := by
  constructor
  · intro fuel base dest name size ch s hf
    exact walk_entry_filtered cfg fuel base dest name size ch s hf
  · intro fuel size path ch s hfil
    simp [uploadMain, hfil, reportErr, unwrapRetry]

/-- Witness for the amended C9 at a concrete filtered name. -/
theorem c9_exclusion_handling_witness :
    walk { baseCfg with extFilter := [".zip"] } 9
        (WalkCall.entry "d" 5 (FsEntry.file "b.zip" 3)) [] (mkS [])
      = (Except.ok (some WalkRes.filterMark), [],
         if ({ baseCfg with extFilter := [".zip"] } : Cfg).seed = false
            ∨ ({ baseCfg with extFilter := [".zip"] } : Cfg).newDir = true
         then (mkS []).log (Action.removeLocal ("d" ++ "/" ++ "b.zip"))
         else mkS [])
    ∧ uploadMain { baseCfg with extFilter := [".zip"] } 0
        (Target.file "y.zip" 2) [] (mkS [])
      = { errored := true, isFolder := false, dirId := none, link := none,
          ch := [], s := (mkS []).log (Action.onUploadError Exc.extFiltered) } := by
  constructor
  · exact (c9_exclusion_handling { baseCfg with extFilter := [".zip"] }).1
      8 "d" 5 "b.zip" 3 [] (mkS []) (Or.inr (by decide))
  · exact (c9_exclusion_handling { baseCfg with extFilter := [".zip"] }).2
      0 2 "y.zip" [] (mkS []) (by decide)

/-- Claim C10 counterexample: a filtered file listed in the per-file
deletion set `ft_delete` is not deleted when `seed` is true and `new_dir`
false — the walker's filter branch never consults `ft_delete`. -/
theorem c10_counterexample :
    walk { baseCfg with
          seed := true, extFilter := [".zip"], ftDelete := ["d/b.zip"] } 9
        (WalkCall.entry "d" 9 (FsEntry.file "b.zip" 3)) [] (mkS [])
      = (Except.ok (some WalkRes.filterMark), [], mkS [])
    ∧ Action.removeLocal "d/b.zip"
        ∉ ((walk { baseCfg with
              seed := true, extFilter := [".zip"], ftDelete := ["d/b.zip"] } 9
              (WalkCall.entry "d" 9 (FsEntry.file "b.zip" 3)) [] (mkS [])).2.2).acts := by
  exact ⟨rfl, by decide⟩

/-- Claim C10 amended: a filtered file encountered during the walk is
deleted iff `not seed or new_dir`; the per-file override set `ft_delete`
plays no role in this branch. -/
theorem c10_filtered_deletion (cfg : Cfg) (base : String) (dest : Nat)
    (name : String) (size : Nat) (fuel : Nat) (ch : List ChunkEvent) (s : S)
    (hf : (base ++ "/" ++ name) ∈ cfg.unwanted
          ∨ matchesFilter cfg.extFilter name = true)
    (hnot : Action.removeLocal (base ++ "/" ++ name) ∉ s.acts) :
    Action.removeLocal (base ++ "/" ++ name)
        ∈ ((walk cfg (fuel + 1)
            (WalkCall.entry base dest (FsEntry.file name size)) ch s).2.2).acts
      ↔ (cfg.seed = false ∨ cfg.newDir = true) := by
  rw [walk_entry_filtered cfg fuel base dest name size ch s hf]
  by_cases hdel : cfg.seed = false ∨ cfg.newDir = true <;>
    simp [hdel, S.log, hnot]

/-- Witness for the amended C10: with `seed` true, `new_dir` false and the
file in `ft_delete`, the filtered file is not deleted. -/
theorem c10_filtered_deletion_witness :
    ¬ (Action.removeLocal ("d" ++ "/" ++ "b.zip")
        ∈ ((walk { baseCfg with
              seed := true, extFilter := [".zip"], ftDelete := ["d/b.zip"] } 9
              (WalkCall.entry "d" 7 (FsEntry.file "b.zip" 3)) [] (mkS [])).2.2).acts) := by
  have h := c10_filtered_deletion { baseCfg with
      seed := true, extFilter := [".zip"], ftDelete := ["d/b.zip"] } "d" 7 "b.zip" 3 8 []
    (mkS []) (Or.inr (by decide)) (by decide)
  intro hmem
  have := h.mp hmem
  simp [baseCfg] at this

end GdUpload
